import Mathlib

/-!
Verification of the easy-db-rust core (src/src/lib.rs): the identifier
validator, the dynamic SQL query building done by the four request handlers,
the row-to-JSON codec, and the table-exposure invariant.  Rust functions are
shallowly embedded as Lean definitions keeping their source names; the
storage engine (rusqlite) is an external collaborator and is represented by
explicit outcome values passed to the handler models.
-/

/-- Embeds `is_valid_identifier` (src/lib.rs): true iff every character of
the name is ASCII alphanumeric or an underscore
(`name.chars().all(|c| c.is_ascii_alphanumeric() || c == '_')`). -/
def is_valid_identifier (name : String) : Bool :=
  name.data.all (fun c => c.isAlphanum || c == '_')

/-- The spec's description of a safe identifier character: an ASCII letter,
an ASCII digit, or an underscore. -/
def spec_safe_char (c : Char) : Prop :=
  ('A' ≤ c ∧ c ≤ 'Z') ∨ ('a' ≤ c ∧ c ≤ 'z') ∨ ('0' ≤ c ∧ c ≤ '9') ∨ c = '_'

lemma safe_char_iff (c : Char) :
    (c.isAlphanum || c == '_') = true ↔ spec_safe_char c := by
  unfold spec_safe_char
  have hA : ('A' : Char).val = 65 := rfl
  have hZ : ('Z' : Char).val = 90 := rfl
  have ha : ('a' : Char).val = 97 := rfl
  have hz : ('z' : Char).val = 122 := rfl
  have h0 : ('0' : Char).val = 48 := rfl
  have h9 : ('9' : Char).val = 57 := rfl
  simp only [Char.isAlphanum, Char.isAlpha, Char.isDigit, Char.isUpper, Char.isLower,
    Bool.or_eq_true, Bool.and_eq_true, decide_eq_true_eq, beq_iff_eq, ge_iff_le,
    Char.le_def, hA, hZ, ha, hz, h0, h9]
  tauto

/-- Claim C1: the identifier validator returns true iff every character of
the string is an ASCII letter, ASCII digit, or underscore; in particular it
accepts the empty string and rejects strings containing a space, semicolon,
hyphen, or a non-ASCII character. -/
theorem claim_C1_identifier_validator :
    ∀ s : String,
      (is_valid_identifier s = true ↔ ∀ c ∈ s.data, spec_safe_char c) ∧
      is_valid_identifier "" = true ∧
      is_valid_identifier "user_name2" = true ∧
      is_valid_identifier "a b" = false ∧
      is_valid_identifier "a;b" = false ∧
      is_valid_identifier "name-x" = false ∧
      is_valid_identifier "café" = false := by
  intro s
  refine ⟨?_, by decide, by decide, by decide, by decide, by decide, by decide⟩
  unfold is_valid_identifier
  rw [List.all_eq_true]
  exact ⟨fun h c hc => (safe_char_iff c).1 (h c hc),
    fun h c hc => (safe_char_iff c).2 (h c hc)⟩

/-- JSON values (serde_json::Value): null, booleans, numbers (kept as their
serialized literal), strings, arrays, objects.  Objects are key/value lists
in iteration order. -/
inductive JVal where
  | null
  | boolean (b : Bool)
  | num (lit : String)
  | str (s : String)
  | arr (items : List JVal)
  | obj (fields : List (String × JVal))

def hex_digit (n : Nat) : String :=
  String.singleton (Char.ofNat (if n < 10 then 48 + n else 87 + n))

/-- serde_json's string escaping: quote, backslash, and the control
characters (named escapes for \n, \r, \t, backspace, form feed, \u00XX for
the rest). -/
def escape_char (c : Char) : String :=
  if c == '"' then "\\\""
  else if c == '\\' then "\\\\"
  else if c == '\n' then "\\n"
  else if c == '\r' then "\\r"
  else if c == '\t' then "\\t"
  else if c == Char.ofNat 8 then "\\b"
  else if c == Char.ofNat 12 then "\\f"
  else if c.toNat < 32 then "\\u00" ++ hex_digit (c.toNat / 16) ++ hex_digit (c.toNat % 16)
  else String.singleton c

def escape_string (s : String) : String :=
  String.join (s.data.map escape_char)

mutual

/-- serde_json's `Value::to_string()` (compact serialization). -/
def render : JVal → String
  | JVal.null => "null"
  | JVal.boolean true => "true"
  | JVal.boolean false => "false"
  | JVal.num lit => lit
  | JVal.str s => "\"" ++ escape_string s ++ "\""
  | JVal.arr items => "[" ++ render_list items ++ "]"
  | JVal.obj fields => "\x7b" ++ render_fields fields ++ "\x7d"

def render_list : List JVal → String
  | [] => ""
  | [v] => render v
  | v :: vs => render v ++ "," ++ render_list vs

def render_fields : List (String × JVal) → String
  | [] => ""
  | [kv] => "\"" ++ escape_string kv.1 ++ "\":" ++ render kv.2
  | kv :: kvs => "\"" ++ escape_string kv.1 ++ "\":" ++ render kv.2 ++ "," ++ render_fields kvs

end

/-- The coercion every write handler applies to a JSON value before binding
it: `v.as_str().unwrap_or(&v.to_string())` — a JSON string is bound as its
raw contents, every other value as its serialization. -/
def json_as_sql_text (v : JVal) : String :=
  match v with
  | JVal.str s => s
  | _ => render v

/-- A value bound to a SQL parameter slot (rusqlite's value kinds).  The
handlers only ever construct `text` (from `String`) and `integer`
(from the `i32` id in DELETE). -/
inductive SqlValue where
  | null
  | integer (n : Int)
  | real (lit : String)
  | text (s : String)
  | blob (bytes : List UInt8)
deriving DecidableEq, Repr

def SqlValue.is_text : SqlValue → Bool
  | SqlValue.text _ => true
  | _ => false

/-- JSON error body `json!({"error": msg})`. -/
def errBody (msg : String) : JVal :=
  JVal.obj [("error", JVal.str msg)]

/-- JSON success envelope `json!({"status": "success", "message": msg})`. -/
def okBody (msg : String) : JVal :=
  JVal.obj [("status", JVal.str "success"), ("message", JVal.str msg)]

/-- Whether a response body is an error body (a JSON object carrying an
`error` key). -/
def has_error_key (b : JVal) : Bool :=
  match b with
  | JVal.obj fields => fields.any (fun kv => kv.1 == "error")
  | _ => false

/-- The outcome of the rusqlite layer for a single `conn.execute` call:
either the number of rows affected, or the engine's error message. -/
inductive ExecResult where
  | ok (affected : Nat)
  | err (msg : String)

/-- A storage value as rusqlite's `ValueRef` presents it to `row_to_json`.
A real's payload is kept opaque as its literal; text and blob carry their
raw bytes. -/
inductive ColVal where
  | null
  | integer (n : Int)
  | real (lit : String)
  | text (bytes : List UInt8)
  | blob (bytes : List UInt8)
deriving DecidableEq, Repr

/-- One row step yielded while iterating a SELECT's mapped rows: a decoded
row (column name, storage value, in result order) or a step error. -/
inductive RowStep where
  | ok (row : List (String × ColVal))
  | err (msg : String)

/-- What the engine does with the one SELECT of `handle_get`: `prepare`
fails, `query_map` fails, or a sequence of row steps is produced. -/
inductive GetDbResult where
  | prepare_err (msg : String)
  | query_err (msg : String)
  | rows (steps : List RowStep)

/-- A handler's observable result: HTTP status, JSON body, and the
statements (SQL text with bound parameters) submitted to the engine. -/
structure HResult where
  status : Nat
  body : JVal
  executed : List (String × List SqlValue)

/-- Folding the executed statements over any notion of database state:
used to express that a request with no executed statement leaves the
database unchanged. -/
def apply_stmts {σ : Type _} (step : σ → String × List SqlValue → σ)
    (s : σ) (stmts : List (String × List SqlValue)) : σ :=
  stmts.foldl step s

/-- The UTF-8 decoder applied by `row_to_json` to text columns
(`std::str::from_utf8`): strict RFC 3629 decoding — continuation bytes in
0x80..0xBF, no overlong forms, no surrogates, nothing above 0x10FFFF.
`none` on any invalid byte sequence. -/
def utf8_decode : List UInt8 → Option (List Char)
  | [] => some []
  | b :: rest =>
    let n := b.toNat
    if n ≤ 0x7F then
      (utf8_decode rest).map (fun cs => Char.ofNat n :: cs)
    else if 0xC2 ≤ n ∧ n ≤ 0xDF then
      match rest with
      | c1 :: rest2 =>
        if 0x80 ≤ c1.toNat ∧ c1.toNat ≤ 0xBF then
          (utf8_decode rest2).map
            (fun cs => Char.ofNat ((n - 0xC0) * 64 + (c1.toNat - 0x80)) :: cs)
        else none
      | [] => none
    else if 0xE0 ≤ n ∧ n ≤ 0xEF then
      match rest with
      | c1 :: c2 :: rest2 =>
        let lo1 := if n = 0xE0 then 0xA0 else 0x80
        let hi1 := if n = 0xED then 0x9F else 0xBF
        if (lo1 ≤ c1.toNat ∧ c1.toNat ≤ hi1) ∧ (0x80 ≤ c2.toNat ∧ c2.toNat ≤ 0xBF) then
          (utf8_decode rest2).map
            (fun cs =>
              Char.ofNat ((n - 0xE0) * 4096 + (c1.toNat - 0x80) * 64 + (c2.toNat - 0x80)) :: cs)
        else none
      | _ => none
    else if 0xF0 ≤ n ∧ n ≤ 0xF4 then
      match rest with
      | c1 :: c2 :: c3 :: rest2 =>
        let lo1 := if n = 0xF0 then 0x90 else 0x80
        let hi1 := if n = 0xF4 then 0x8F else 0xBF
        if (lo1 ≤ c1.toNat ∧ c1.toNat ≤ hi1) ∧ (0x80 ≤ c2.toNat ∧ c2.toNat ≤ 0xBF) ∧
            (0x80 ≤ c3.toNat ∧ c3.toNat ≤ 0xBF) then
          (utf8_decode rest2).map
            (fun cs =>
              Char.ofNat ((n - 0xF0) * 262144 + (c1.toNat - 0x80) * 4096 +
                (c2.toNat - 0x80) * 64 + (c3.toNat - 0x80)) :: cs)
        else none
      | _ => none
    else none

/-- Rust's `format!("{:?}", bytes)` for a byte slice: decimal values,
comma-space separated, in square brackets. -/
def debug_bytes (bs : List UInt8) : String :=
  "[" ++ String.intercalate ", " (bs.map (fun b => toString b.toNat)) ++ "]"

/-- The per-column mapping of `row_to_json` (src/lib.rs): null to JSON
null, integer and real to JSON numbers, text to a JSON string via UTF-8
decoding with `unwrap_or("")`, blob to a JSON string of the debug byte
representation. -/
def col_val_to_json : ColVal → JVal
  | ColVal.null => JVal.null
  | ColVal.integer n => JVal.num (toString n)
  | ColVal.real lit => JVal.num lit
  | ColVal.text bs =>
    JVal.str (match utf8_decode bs with
      | some cs => String.mk cs
      | none => "")
  | ColVal.blob bs => JVal.str (debug_bytes bs)

/-- Embeds `row_to_json` (src/lib.rs): one JSON key per result column,
each storage value mapped by kind. -/
def row_to_json (row : List (String × ColVal)) : JVal :=
  JVal.obj (row.map (fun kv => (kv.1, col_val_to_json kv.2)))

/-- Rust's `k.starts_with('_')` (a char pattern): the first character is
an underscore. -/
def starts_with_underscore (k : String) : Bool :=
  match k.data with
  | [] => false
  | c :: _ => c == '_'

/-- Rust's `s.to_uppercase()` as used on the `_order` value (ASCII
mapping). -/
def to_uppercase (s : String) : String :=
  String.mk (s.data.map Char.toUpper)

/-- What `handle_get` decides before touching the engine: an early 400
response, or a SQL text with positionally bound parameters. -/
inductive GetOutcome where
  | response (status : Nat) (body : JVal)
  | execute (sql : String) (params : List SqlValue)

/-- The filter loop of `handle_get` (src/lib.rs): every query parameter
whose name does not start with an underscore must be a valid identifier
(else 400 "Invalid column name"); each contributes a `k = ?` conjunct and
its value, bound as text, in iteration order. -/
def build_filters : List (String × String) → Except JVal (List String × List SqlValue)
  | [] => Except.ok ([], [])
  | (k, v) :: rest =>
    if !(starts_with_underscore k) then
      if !(is_valid_identifier k) then Except.error (errBody "Invalid column name")
      else
        match build_filters rest with
        | Except.error e => Except.error e
        | Except.ok (fs, ps) => Except.ok ((k ++ " = ?") :: fs, SqlValue.text v :: ps)
    else build_filters rest

/-- The SQL-building phase of `handle_get` (src/lib.rs): base
`SELECT * FROM <table>`, a WHERE clause joining the filter conjuncts with
" AND " when any exist, then the `_sort`/`_order` handling — an invalid
`_sort` column is a 400, the `_order` value is uppercased and anything but
"DESC" becomes "ASC". -/
def handle_get_build (table_name : String) (params : List (String × String)) : GetOutcome :=
  match build_filters params with
  | Except.error body => GetOutcome.response 400 body
  | Except.ok (filters, sql_params) =>
    let sql0 := "SELECT * FROM " ++ table_name
    let sql1 :=
      if filters.isEmpty then sql0
      else sql0 ++ " WHERE " ++ String.intercalate " AND " filters
    match List.lookup "_sort" params with
    | none => GetOutcome.execute sql1 sql_params
    | some sort_col =>
      if !(is_valid_identifier sort_col) then
        GetOutcome.response 400 (errBody "Invalid sort column")
      else
        let order :=
          match List.lookup "_order" params with
          | some s => to_uppercase s
          | none => "ASC"
        let safe_order := if order == "DESC" then "DESC" else "ASC"
        GetOutcome.execute (sql1 ++ " ORDER BY " ++ sort_col ++ " " ++ safe_order) sql_params

/-- The execution phase of `handle_get`: a prepare or query_map failure is
a 500 with the engine's message; otherwise the row steps are collected with
`filter_map(|r| r.ok())` — erroring steps are dropped — into a 200 JSON
array. -/
def handle_get_respond (db : GetDbResult) : Nat × JVal :=
  match db with
  | GetDbResult.prepare_err e => (500, errBody e)
  | GetDbResult.query_err e => (500, errBody e)
  | GetDbResult.rows steps =>
    (200, JVal.arr (steps.filterMap
      (fun st =>
        match st with
        | RowStep.ok r => some (row_to_json r)
        | RowStep.err _ => none)))

/-- Embeds `handle_get` (src/lib.rs), with the engine's behaviour for the
one SELECT supplied as `db`. -/
def handle_get (table_name : String) (params : List (String × String))
    (db : GetDbResult) : HResult :=
  match handle_get_build table_name params with
  | GetOutcome.response s b => ⟨s, b, []⟩
  | GetOutcome.execute sql ps =>
    let r := handle_get_respond db
    ⟨r.1, r.2, [(sql, ps)]⟩

/-- The validation and SQL-building phase of `handle_post` (src/lib.rs): a
non-object body or an empty object is a 400; any invalid key is a 400; else
`INSERT INTO <table> (keys) VALUES (?, ...)` with one text-bound value per
key, in key order. -/
def handle_post_build (table_name : String) (payload : JVal) :
    Except (Nat × JVal) (String × List SqlValue) :=
  match payload with
  | JVal.obj fields =>
    if fields.isEmpty then Except.error (400, errBody "Empty JSON body")
    else
      let keys := fields.map Prod.fst
      match keys.find? (fun k => !(is_valid_identifier k)) with
      | some key => Except.error (400, errBody ("Invalid column: " ++ key))
      | none =>
        let placeholders := keys.map (fun _ => "?")
        let sql := "INSERT INTO " ++ table_name ++ " (" ++ String.intercalate ", " keys ++
          ") VALUES (" ++ String.intercalate ", " placeholders ++ ")"
        let vals := fields.map (fun kv => SqlValue.text (json_as_sql_text kv.2))
        Except.ok (sql, vals)
  | _ => Except.error (400, errBody "Invalid JSON format")

/-- Embeds `handle_post` (src/lib.rs): 201 on success, engine failure is a
500 with the engine's message. -/
def handle_post (table_name : String) (payload : JVal) (db : ExecResult) : HResult :=
  match handle_post_build table_name payload with
  | Except.error sb => ⟨sb.1, sb.2, []⟩
  | Except.ok (sql, vals) =>
    match db with
    | ExecResult.ok _ => ⟨201, okBody "Record created", [(sql, vals)]⟩
    | ExecResult.err e => ⟨500, errBody e, [(sql, vals)]⟩

/-- The validation and SQL-building phase of `handle_put` (src/lib.rs): a
non-object body is a 400, any invalid key is a 400 (an empty object passes
— its key loop is vacuous); else `UPDATE <table> SET k1 = ?, ... WHERE id =
?`, the payload values bound as text followed by the id's string
representation. -/
def handle_put_build (table_name : String) (id : Int) (payload : JVal) :
    Except (Nat × JVal) (String × List SqlValue) :=
  match payload with
  | JVal.obj fields =>
    match (fields.map Prod.fst).find? (fun k => !(is_valid_identifier k)) with
    | some _ => Except.error (400, errBody "Invalid column name")
    | none =>
      let updates := fields.map (fun kv => kv.1 ++ " = ?")
      let sql := "UPDATE " ++ table_name ++ " SET " ++ String.intercalate ", " updates ++
        " WHERE id = ?"
      let ps := fields.map (fun kv => SqlValue.text (json_as_sql_text kv.2)) ++
        [SqlValue.text (toString id)]
      Except.ok (sql, ps)
  | _ => Except.error (400, errBody "Invalid JSON format")

/-- Embeds `handle_put` (src/lib.rs): 404 when the engine affects zero
rows, 200 on at least one, 500 with the engine's message on failure. -/
def handle_put (table_name : String) (id : Int) (payload : JVal) (db : ExecResult) : HResult :=
  match handle_put_build table_name id payload with
  | Except.error sb => ⟨sb.1, sb.2, []⟩
  | Except.ok (sql, ps) =>
    match db with
    | ExecResult.ok 0 => ⟨404, errBody "Record not found", [(sql, ps)]⟩
    | ExecResult.ok _ => ⟨200, okBody "Record updated", [(sql, ps)]⟩
    | ExecResult.err e => ⟨500, errBody e, [(sql, ps)]⟩

/-- Embeds `handle_delete` (src/lib.rs): `DELETE FROM <table> WHERE id =
?` with the `i32` id bound natively (`conn.execute(&sql, [id])`), then the
same 404/200/500 mapping as update. -/
def handle_delete (table_name : String) (id : Int) (db : ExecResult) : HResult :=
  let sql := "DELETE FROM " ++ table_name ++ " WHERE id = ?"
  match db with
  | ExecResult.ok 0 => ⟨404, errBody "Record not found", [(sql, [SqlValue.integer id])]⟩
  | ExecResult.ok _ => ⟨200, okBody "Record deleted", [(sql, [SqlValue.integer id])]⟩
  | ExecResult.err e => ⟨500, errBody e, [(sql, [SqlValue.integer id])]⟩

/-- The server engine's state visible to route registration: the database
name and the tables exposed to the API (src/lib.rs, `EasyDB`). -/
structure EasyDB where
  db_name : String
  exposed_tables : List String

/-- `EasyDB::init`: a fresh connection exposes no tables. -/
def EasyDB.init (name : String) : EasyDB :=
  ⟨name, []⟩

/-- The engine's verdict on the CREATE TABLE DDL issued by `create_table`. -/
inductive DdlOutcome where
  | ok
  | err (msg : String)

/-- The DDL text `create_table` sends: `CREATE TABLE IF NOT EXISTS <name>
(<columns>)`. -/
def create_table_sql (table_name columns : String) : String :=
  "CREATE TABLE IF NOT EXISTS " ++ table_name ++ " (" ++ columns ++ ")"

/-- Embeds `EasyDB::create_table` (src/lib.rs): an invalid table name is
rejected before any DDL; a DDL failure propagates; only on success is the
name appended to `exposed_tables`. -/
def create_table (db : EasyDB) (table_name columns : String) (engine : DdlOutcome) :
    Except String EasyDB :=
  if !(is_valid_identifier table_name) then
    Except.error ("Invalid table name: " ++ table_name)
  else
    match engine with
    | DdlOutcome.err e => Except.error e
    | DdlOutcome.ok =>
      Except.ok { db with exposed_tables := db.exposed_tables ++ [table_name] }

/-- Any sequence of `create_table` calls from a caller that keeps going on
failure: a failed call leaves the state untouched (the Rust method returns
`Err` before pushing). -/
def run_ops (db : EasyDB) : List (String × String × DdlOutcome) → EasyDB
  | [] => db
  | (t, c, e) :: rest =>
    match create_table db t c e with
    | Except.ok db2 => run_ops db2 rest
    | Except.error _ => run_ops db rest

/-- `run_server` (src/lib.rs) registers GET/POST/PUT/DELETE routes exactly
for the tables in `exposed_tables`; the table name each handler closure
captures is the exposed name itself. -/
def server_route_tables (db : EasyDB) : List String :=
  db.exposed_tables

/-- A validation-rejected request: status 400, a JSON body carrying an
`error` key, no statement submitted to the engine, and consequently any
database state left unchanged. -/
def rejected (r : HResult) : Prop :=
  r.status = 400 ∧ has_error_key r.body = true ∧ r.executed = [] ∧
    ∀ (σ : Type) (step : σ → String × List SqlValue → σ) (s : σ),
      apply_stmts step s r.executed = s

/-- The spec side of the List query: the filter set is the non-reserved
query parameters, in order. -/
def spec_filter_params (params : List (String × String)) : List (String × String) :=
  params.filter (fun kv => !(starts_with_underscore kv.1))

/-- The spec side of the List query's WHERE clause. -/
def spec_where_clause (params : List (String × String)) : String :=
  let fs := (spec_filter_params params).map (fun kv => kv.1 ++ " = ?")
  if fs.isEmpty then "" else " WHERE " ++ String.intercalate " AND " fs

/-- The spec side of the sort direction: uppercase the `_order` value,
anything but "DESC" (or no `_order` at all) is "ASC". -/
def spec_order_dir (params : List (String × String)) : String :=
  let order :=
    match List.lookup "_order" params with
    | some s => to_uppercase s
    | none => "ASC"
  if order == "DESC" then "DESC" else "ASC"

/-- The spec side of the ORDER BY clause: present exactly when `_sort` is. -/
def spec_order_clause (params : List (String × String)) : String :=
  match List.lookup "_sort" params with
  | none => ""
  | some c => " ORDER BY " ++ c ++ " " ++ spec_order_dir params

/-- The spec side of the full List SQL text. -/
def spec_list_sql (t : String) (params : List (String × String)) : String :=
  "SELECT * FROM " ++ t ++ spec_where_clause params ++ spec_order_clause params

/-- The spec side of the List query's bound parameters: the filter values,
as text, in filter order. -/
def spec_list_params (params : List (String × String)) : List SqlValue :=
  (spec_filter_params params).map (fun kv => SqlValue.text kv.2)

lemma build_filters_ok (ps : List (String × String))
    (h : ∀ kv ∈ ps, starts_with_underscore kv.1 = false → is_valid_identifier kv.1 = true) :
    build_filters ps = Except.ok
      ((spec_filter_params ps).map (fun kv => kv.1 ++ " = ?"),
       (spec_filter_params ps).map (fun kv => SqlValue.text kv.2)) := by
  induction ps with
  | nil => rfl
  | cons kv rest ih =>
    obtain ⟨k, v⟩ := kv
    have hrest : ∀ kv ∈ rest, starts_with_underscore kv.1 = false →
        is_valid_identifier kv.1 = true :=
      fun kv hm => h kv (List.mem_cons_of_mem _ hm)
    by_cases hu : starts_with_underscore k = true
    · simp [build_filters, hu, ih hrest, spec_filter_params]
    · have hv : is_valid_identifier k = true :=
        h (k, v) (List.mem_cons_self _ _) (by simpa using hu)
      simp [build_filters, hu, hv, ih hrest, spec_filter_params]

lemma build_filters_err (ps : List (String × String))
    (h : ∃ kv ∈ ps, starts_with_underscore kv.1 = false ∧ is_valid_identifier kv.1 = false) :
    build_filters ps = Except.error (errBody "Invalid column name") := by
  induction ps with
  | nil => simp at h
  | cons kv rest ih =>
    obtain ⟨k, v⟩ := kv
    by_cases hu : starts_with_underscore k = true
    · have hrest : ∃ kv ∈ rest, starts_with_underscore kv.1 = false ∧
          is_valid_identifier kv.1 = false := by
        rcases h with ⟨kv0, hm, h1, h2⟩
        rcases List.mem_cons.1 hm with heq | hm2
        · subst heq; simp [hu] at h1
        · exact ⟨kv0, hm2, h1, h2⟩
      simp [build_filters, hu, ih hrest]
    · by_cases hv : is_valid_identifier k = true
      · have hrest : ∃ kv ∈ rest, starts_with_underscore kv.1 = false ∧
            is_valid_identifier kv.1 = false := by
          rcases h with ⟨kv0, hm, h1, h2⟩
          rcases List.mem_cons.1 hm with heq | hm2
          · subst heq; simp [hv] at h2
          · exact ⟨kv0, hm2, h1, h2⟩
        simp [build_filters, hu, hv, ih hrest]
      · simp [build_filters, hu, hv]

lemma build_filters_err_msg (ps : List (String × String)) :
    ∀ e, build_filters ps = Except.error e → e = errBody "Invalid column name" := by
  induction ps with
  | nil => intro e he; simp [build_filters] at he
  | cons kv rest ih =>
    obtain ⟨k, v⟩ := kv
    intro e he
    by_cases hu : starts_with_underscore k = true
    · exact ih e (by simpa [build_filters, hu] using he)
    · by_cases hv : is_valid_identifier k = true
      · rcases hbf : build_filters rest with e2 | pr
        · have := ih e2 hbf
          simp [build_filters, hu, hv, hbf] at he
          cc
        · simp [build_filters, hu, hv, hbf] at he
      · simp [build_filters, hu, hv] at he
        cc

lemma build_filters_text (ps : List (String × String)) :
    ∀ fs qs, build_filters ps = Except.ok (fs, qs) → qs.all SqlValue.is_text = true := by
  induction ps with
  | nil =>
    intro fs qs h
    simp [build_filters] at h
    simp [h.2]
  | cons kv rest ih =>
    obtain ⟨k, v⟩ := kv
    intro fs qs h
    by_cases hu : starts_with_underscore k = true
    · exact ih fs qs (by simpa [build_filters, hu] using h)
    · by_cases hv : is_valid_identifier k = true
      · rcases hbf : build_filters rest with e | ⟨fs2, qs2⟩
        · simp [build_filters, hu, hv, hbf] at h
        · simp [build_filters, hu, hv, hbf] at h
          rcases h with ⟨hfs, hqs⟩
          subst hqs
          simpa [SqlValue.is_text] using ih fs2 qs2 hbf
      · simp [build_filters, hu, hv] at h

lemma handle_post_build_ok (t : String) (fields : List (String × JVal))
    (hne : fields ≠ [])
    (h : fields.all (fun kv => is_valid_identifier kv.1) = true) :
    handle_post_build t (JVal.obj fields) =
      Except.ok
        ("INSERT INTO " ++ t ++ " (" ++ String.intercalate ", " (fields.map Prod.fst) ++
          ") VALUES (" ++
          String.intercalate ", " ((fields.map Prod.fst).map (fun _ => "?")) ++ ")",
         fields.map (fun kv => SqlValue.text (json_as_sql_text kv.2))) := by
  have hfind : (fields.map Prod.fst).find? (fun k => !(is_valid_identifier k)) = none := by
    rw [List.find?_eq_none]
    intro k hk
    rcases List.mem_map.1 hk with ⟨kv, hkv, rfl⟩
    have := List.all_eq_true.1 h kv hkv
    simp [this]
  have hempty : fields.isEmpty = false := by
    cases fields with
    | nil => exact absurd rfl hne
    | cons a l => rfl
  simp only [handle_post_build, hempty, Bool.false_eq_true, if_false, hfind]

lemma handle_put_build_ok (t : String) (id : Int) (fields : List (String × JVal))
    (h : fields.all (fun kv => is_valid_identifier kv.1) = true) :
    handle_put_build t id (JVal.obj fields) =
      Except.ok
        ("UPDATE " ++ t ++ " SET " ++
          String.intercalate ", " (fields.map (fun kv => kv.1 ++ " = ?")) ++ " WHERE id = ?",
         fields.map (fun kv => SqlValue.text (json_as_sql_text kv.2)) ++
           [SqlValue.text (toString id)]) := by
  have hfind : (fields.map Prod.fst).find? (fun k => !(is_valid_identifier k)) = none := by
    rw [List.find?_eq_none]
    intro k hk
    rcases List.mem_map.1 hk with ⟨kv, hkv, rfl⟩
    have := List.all_eq_true.1 h kv hkv
    simp [this]
  simp [handle_put_build, hfind]

lemma errBody_has_error_key (m : String) : has_error_key (errBody m) = true := rfl

/-- Claim C2 as frozen is refuted: the parameter name "_x;" is not one of
the reserved names `_sort`/`_order`, so under the claim it is a filter key,
and it fails identifier validation — yet the List handler answers 200 and
submits a SELECT to the engine, because the code treats every
underscore-prefixed parameter as reserved and never validates it. -/
theorem claim_C2_counterexample :
    is_valid_identifier "_x;" = false ∧ "_x;" ≠ "_sort" ∧ "_x;" ≠ "_order" ∧
    (handle_get "users" [("_x;", "1")] (GetDbResult.rows [])).status = 200 ∧
    (handle_get "users" [("_x;", "1")] (GetDbResult.rows [])).executed =
      [("SELECT * FROM users", [])] :=
  ⟨by decide, by decide, by decide, rfl, rfl⟩

/-- Claim C2 amended: restrict "filter key" to the query parameters the
code treats as filters — those whose name does not start with an
underscore.  Then any List request with an invalid filter key or an
invalid `_sort` column, and any Create or Update request with an invalid
payload key, is answered 400 with an error body, no SQL statement is
submitted to the engine, and the database state is unchanged. -/
theorem claim_C2_amended :
    ∀ (t : String) (params : List (String × String)) (fields : List (String × JVal))
      (id : Int) (gdb : GetDbResult) (edb : ExecResult),
      (((∃ kv ∈ params, starts_with_underscore kv.1 = false ∧
            is_valid_identifier kv.1 = false) ∨
          (∃ c, List.lookup "_sort" params = some c ∧ is_valid_identifier c = false)) →
        rejected (handle_get t params gdb)) ∧
      ((∃ kv ∈ fields, is_valid_identifier kv.1 = false) →
        rejected (handle_post t (JVal.obj fields) edb)) ∧
      ((∃ kv ∈ fields, is_valid_identifier kv.1 = false) →
        rejected (handle_put t id (JVal.obj fields) edb)) := by
  intro t params fields id gdb edb
  refine ⟨?_, ?_, ?_⟩
  · intro h
    rcases h with hfilt | ⟨c, hlk, hcv⟩
    · have hbf := build_filters_err params hfilt
      simp [handle_get, handle_get_build, hbf, rejected, errBody_has_error_key, apply_stmts]
    · rcases hbf : build_filters params with e | ⟨fs, qs⟩
      · have he := build_filters_err_msg params e hbf
        subst he
        simp [handle_get, handle_get_build, hbf, rejected, errBody_has_error_key, apply_stmts]
      · simp [handle_get, handle_get_build, hbf, hlk, hcv, rejected,
          errBody_has_error_key, apply_stmts]
  · rintro ⟨kv0, hm, hinv⟩
    have hsome : ((fields.map Prod.fst).find? (fun k => !(is_valid_identifier k))).isSome := by
      rw [List.find?_isSome]
      exact ⟨kv0.1, List.mem_map_of_mem _ hm, by simp [hinv]⟩
    rcases Option.isSome_iff_exists.1 hsome with ⟨k2, hk2⟩
    have hempty : fields.isEmpty = false := by
      cases fields with
      | nil => simp at hm
      | cons a l => rfl
    simp [handle_post, handle_post_build, hempty, hk2, rejected,
      errBody_has_error_key, apply_stmts]
  · rintro ⟨kv0, hm, hinv⟩
    have hsome : ((fields.map Prod.fst).find? (fun k => !(is_valid_identifier k))).isSome := by
      rw [List.find?_isSome]
      exact ⟨kv0.1, List.mem_map_of_mem _ hm, by simp [hinv]⟩
    rcases Option.isSome_iff_exists.1 hsome with ⟨k2, hk2⟩
    simp [handle_put, handle_put_build, hk2, rejected, errBody_has_error_key, apply_stmts]

/-- Claim C3 as frozen is refuted: `_limit` is neither `_sort` nor
`_order`, and is a valid identifier, so under the claim the List SQL for
`?_limit=5` must carry a `_limit = ?` conjunct with a bound value — but
the code skips every underscore-prefixed parameter, emitting the bare
SELECT with no bound parameter. -/
theorem claim_C3_counterexample :
    "_limit" ≠ "_sort" ∧ "_limit" ≠ "_order" ∧ is_valid_identifier "_limit" = true ∧
    handle_get_build "users" [("_limit", "5")] =
      GetOutcome.execute "SELECT * FROM users" [] :=
  ⟨by decide, by decide, by decide, rfl⟩

/-- Claim C3 amended: the parameters contributing WHERE conjuncts are
exactly those whose name does not start with an underscore (the code's
reserved set is every underscore-prefixed name, not just `_sort` and
`_order`).  With that change: the SQL is `SELECT * FROM t`, plus a WHERE
clause joining `k = ?` conjuncts with " AND " for the non-underscore
parameters in order, each value bound positionally as text and never
interpolated; and when `_sort=c` is present, ` ORDER BY c D` is appended
with D being "DESC" exactly when the `_order` value uppercases to "DESC"
and "ASC" otherwise. -/
theorem claim_C3_amended (t : String) (params : List (String × String))
    (hfilters : params.all
      (fun kv => starts_with_underscore kv.1 || is_valid_identifier kv.1) = true)
    (hsort : Option.all is_valid_identifier (List.lookup "_sort" params) = true) :
    handle_get_build t params =
      GetOutcome.execute (spec_list_sql t params) (spec_list_params params) := by
  have hvalid : ∀ kv ∈ params, starts_with_underscore kv.1 = false →
      is_valid_identifier kv.1 = true := by
    intro kv hm hu
    have := List.all_eq_true.1 hfilters kv hm
    simpa [hu] using this
  rw [handle_get_build, build_filters_ok params hvalid]
  rcases hlk : List.lookup "_sort" params with _ | c
  · simp only [hlk, spec_list_sql, spec_list_params, spec_where_clause, spec_order_clause,
      spec_filter_params, List.isEmpty_eq_true, List.map_eq_nil_iff, String.append_empty]
    rcases hfp : params.filter (fun kv => !(starts_with_underscore kv.1)) with _ | ⟨kv0, rest⟩
    · simp [hfp, String.append_empty]
    · simp [hfp, String.append_assoc]
  · have hc : is_valid_identifier c = true := by
      rw [hlk] at hsort
      simpa using hsort
    simp only [hlk, hc, spec_list_sql, spec_list_params, spec_where_clause, spec_order_clause,
      spec_order_dir, spec_filter_params, Bool.not_true, if_false, String.append_empty]
    rcases hfp : params.filter (fun kv => !(starts_with_underscore kv.1)) with _ | ⟨kv0, rest⟩
    · simp [hfp, String.append_empty, String.append_assoc]
    · simp [hfp, String.append_assoc]

/-- Witness for the amended C3 at a concrete request. -/
theorem claim_C3_amended_witness :
    handle_get_build "users" [("name", "Alice"), ("_sort", "age"), ("_order", "desc")] =
      GetOutcome.execute "SELECT * FROM users WHERE name = ? ORDER BY age DESC"
        [SqlValue.text "Alice"] :=
  (claim_C3_amended "users" [("name", "Alice"), ("_sort", "age"), ("_order", "desc")]
    (by decide) (by decide)).trans rfl

/-- Claim C4: a Create request with an empty JSON object is answered 400
with an error body and no INSERT is executed; a non-empty object with
valid keys k1..kn yields `INSERT INTO <table> (k1, ..., kn) VALUES (?,
..., ?)` — one placeholder per key and one text-bound value per key, the
values in the same order as the column list. -/
theorem claim_C4_insert :
    ∀ (t : String) (fields : List (String × JVal)) (db : ExecResult),
      ((handle_post t (JVal.obj []) db).status = 400 ∧
        has_error_key (handle_post t (JVal.obj []) db).body = true ∧
        (handle_post t (JVal.obj []) db).executed = []) ∧
      (fields ≠ [] → fields.all (fun kv => is_valid_identifier kv.1) = true →
        handle_post_build t (JVal.obj fields) =
          Except.ok
            ("INSERT INTO " ++ t ++ " (" ++ String.intercalate ", " (fields.map Prod.fst) ++
              ") VALUES (" ++
              String.intercalate ", " ((fields.map Prod.fst).map (fun _ => "?")) ++ ")",
             fields.map (fun kv => SqlValue.text (json_as_sql_text kv.2))) ∧
        ((fields.map Prod.fst).map (fun _ => "?")).length = fields.length ∧
        (fields.map (fun kv => SqlValue.text (json_as_sql_text kv.2))).length =
          fields.length) := by
  intro t fields db
  refine ⟨⟨rfl, rfl, rfl⟩, fun hne h => ⟨handle_post_build_ok t fields hne h, by simp, by simp⟩⟩

/-- Claim C5: when the engine executes the Update or Delete statement
without error, zero affected rows is answered 404 with exactly
`{"error": "Record not found"}`, and one or more affected rows is answered
200 with the `{status, message}` success envelope. -/
theorem claim_C5_zero_rows_not_found :
    ∀ (t : String) (id : Int) (fields : List (String × JVal)) (n : Nat),
      (fields.all (fun kv => is_valid_identifier kv.1) = true →
        ((handle_put t id (JVal.obj fields) (ExecResult.ok 0)).status = 404 ∧
          (handle_put t id (JVal.obj fields) (ExecResult.ok 0)).body =
            errBody "Record not found") ∧
        (n ≠ 0 →
          (handle_put t id (JVal.obj fields) (ExecResult.ok n)).status = 200 ∧
          (handle_put t id (JVal.obj fields) (ExecResult.ok n)).body =
            okBody "Record updated")) ∧
      ((handle_delete t id (ExecResult.ok 0)).status = 404 ∧
        (handle_delete t id (ExecResult.ok 0)).body = errBody "Record not found") ∧
      (n ≠ 0 →
        (handle_delete t id (ExecResult.ok n)).status = 200 ∧
        (handle_delete t id (ExecResult.ok n)).body = okBody "Record deleted") := by
  intro t id fields n
  refine ⟨fun h => ⟨?_, fun hn => ?_⟩, ⟨rfl, rfl⟩, fun hn => ?_⟩
  · simp [handle_put, handle_put_build_ok t id fields h]
  · cases n with
    | zero => exact absurd rfl hn
    | succ m => simp [handle_put, handle_put_build_ok t id fields h]
  · cases n with
    | zero => exact absurd rfl hn
    | succ m => exact ⟨rfl, rfl⟩

/-- Witness for C5 at a concrete update and delete. -/
theorem claim_C5_witness :
    (handle_put "users" 3 (JVal.obj [("name", JVal.str "Bob")]) (ExecResult.ok 0)).status =
        404 ∧
      (handle_delete "users" 3 (ExecResult.ok 1)).status = 200 := by
  have h := claim_C5_zero_rows_not_found "users" 3 [("name", JVal.str "Bob")] 1
  exact ⟨(h.1 (by decide)).1.1, (h.2.2 (by decide)).1⟩

lemma handle_get_build_params_text (t : String) (params : List (String × String))
    (sql : String) (ps : List SqlValue)
    (h : handle_get_build t params = GetOutcome.execute sql ps) :
    ps.all SqlValue.is_text = true := by
  unfold handle_get_build at h
  rcases hbf : build_filters params with e | ⟨fs, qs⟩ <;> rw [hbf] at h
  · simp at h
  · have hqs := build_filters_text params fs qs hbf
    rcases hlk : List.lookup "_sort" params with _ | c <;> rw [hlk] at h
    · simp only [GetOutcome.execute.injEq] at h
      rw [← h.2]
      exact hqs
    · by_cases hcv : is_valid_identifier c = true
      · simp only [hcv, Bool.not_true, Bool.false_eq_true, if_false,
          GetOutcome.execute.injEq] at h
        rw [← h.2]
        exact hqs
      · simp [hcv] at h

lemma handle_post_build_params_text (t : String) (payload : JVal)
    (sql : String) (ps : List SqlValue)
    (h : handle_post_build t payload = Except.ok (sql, ps)) :
    ps.all SqlValue.is_text = true := by
  cases payload with
  | obj fields =>
    unfold handle_post_build at h
    by_cases hempty : fields.isEmpty = true
    · simp [hempty] at h
    · rcases hf : (fields.map Prod.fst).find? (fun k => !(is_valid_identifier k)) with _ | k2 <;>
        simp only [hempty, Bool.false_eq_true, if_false, hf] at h
      · rw [Except.ok.injEq, Prod.mk.injEq] at h
        rcases h with ⟨h1, h2⟩
        rw [← h2, List.all_eq_true]
        intro x hx
        rcases List.mem_map.1 hx with ⟨kv, hkv, rfl⟩
        rfl
      · cases h
  | null => cases h
  | boolean b => cases h
  | num l => cases h
  | str s => cases h
  | arr xs => cases h

lemma handle_put_build_params_text (t : String) (id : Int) (payload : JVal)
    (sql : String) (ps : List SqlValue)
    (h : handle_put_build t id payload = Except.ok (sql, ps)) :
    ps.all SqlValue.is_text = true := by
  cases payload with
  | obj fields =>
    unfold handle_put_build at h
    rcases hf : (fields.map Prod.fst).find? (fun k => !(is_valid_identifier k)) with _ | k2 <;>
      simp only [hf] at h
    · rw [Except.ok.injEq, Prod.mk.injEq] at h
      rcases h with ⟨h1, h2⟩
      rw [← h2, List.all_append, Bool.and_eq_true]
      refine ⟨List.all_eq_true.2 ?_, rfl⟩
      intro x hx
      rcases List.mem_map.1 hx with ⟨kv, hkv, rfl⟩
      rfl
    · cases h
  | null => cases h
  | boolean b => cases h
  | num l => cases h
  | str s => cases h
  | arr xs => cases h

/-- Claim C6 as frozen is refuted: the Delete handler binds the row id as a
native integer (`conn.execute(&sql, [id])` with `id: i32`), not as its
string representation. -/
theorem claim_C6_counterexample :
    (handle_delete "users" 5 (ExecResult.ok 1)).executed =
      [("DELETE FROM users WHERE id = ?", [SqlValue.integer 5])] ∧
    SqlValue.is_text (SqlValue.integer 5) = false ∧
    SqlValue.integer 5 ≠ SqlValue.text (toString (5 : Int)) :=
  ⟨rfl, rfl, by decide⟩

/-- Claim C6 amended: every value bound by the List, Create, and Update
handlers — filter values, payload values, and the Update row id — is
coerced to its string representation and bound as text; the one exception
is the Delete handler, whose row id is bound as a native integer. -/
theorem claim_C6_amended :
    ∀ (t : String) (params : List (String × String)) (payload : JVal) (id : Int)
      (db : ExecResult) (sql : String) (ps : List SqlValue),
      (handle_get_build t params = GetOutcome.execute sql ps →
        ps.all SqlValue.is_text = true) ∧
      (handle_post_build t payload = Except.ok (sql, ps) →
        ps.all SqlValue.is_text = true) ∧
      (handle_put_build t id payload = Except.ok (sql, ps) →
        ps.all SqlValue.is_text = true) ∧
      (handle_delete t id db).executed.map Prod.snd = [[SqlValue.integer id]] := by
  intro t params payload id db sql ps
  refine ⟨handle_get_build_params_text t params sql ps,
    handle_post_build_params_text t payload sql ps,
    handle_put_build_params_text t id payload sql ps, ?_⟩
  cases db with
  | ok n =>
    cases n with
    | zero => rfl
    | succ m => rfl
  | err e => rfl

/-- Claim C7: an Update request with an empty JSON object passes
validation (its key loop is vacuous); the handler builds and submits
`UPDATE <table> SET  WHERE id = ?` — zero SET assignments — and when the
engine rejects that malformed statement the response is a 500 carrying the
engine's message, with nothing else executed. -/
theorem claim_C7_empty_update :
    ∀ (t : String) (id : Int) (e : String),
      handle_put_build t id (JVal.obj []) =
        Except.ok ("UPDATE " ++ t ++ " SET  WHERE id = ?", [SqlValue.text (toString id)]) ∧
      handle_put t id (JVal.obj []) (ExecResult.err e) =
        ⟨500, errBody e,
          [("UPDATE " ++ t ++ " SET  WHERE id = ?", [SqlValue.text (toString id)])]⟩ ∧
      handle_put "students" 7 (JVal.obj []) (ExecResult.err e) =
        ⟨500, errBody e, [("UPDATE students SET  WHERE id = ?", [SqlValue.text "7"])]⟩ := by
  intro t id e
  have hlit : " SET " ++ " WHERE id = ?" = " SET  WHERE id = ?" := rfl
  have hb := handle_put_build_ok t id [] rfl
  have hint : String.intercalate ", " ([] : List String) = "" := rfl
  simp only [List.map_nil, hint, List.nil_append] at hb
  have hsql : "UPDATE " ++ t ++ " SET " ++ "" ++ " WHERE id = ?" =
      "UPDATE " ++ t ++ " SET  WHERE id = ?" := by
    rw [String.append_empty, String.append_assoc, hlit]
  refine ⟨?_, ?_, rfl⟩
  · rw [hb, hsql]
  · simp only [handle_put, hb, hsql]

/-- Claim C8: `row_to_json` produces a JSON object with one key per result
column; null maps to JSON null, integers and reals to JSON numbers, text
to a JSON string via UTF-8 decoding where any invalid byte sequence yields
the empty string instead of failing the row, and a blob to a JSON string
with a debug byte representation.  That representation is not a reversible
encoding: a blob and a distinct text value can produce the same JSON
output, so the original storage value cannot be recovered from it. -/
theorem claim_C8_row_codec :
    ∀ (row : List (String × ColVal)) (n : Int) (lit : String)
      (bs : List UInt8) (cs : List Char),
      (∃ fields, row_to_json row = JVal.obj fields ∧
        fields.map Prod.fst = row.map Prod.fst ∧
        fields = row.map (fun kv => (kv.1, col_val_to_json kv.2))) ∧
      col_val_to_json ColVal.null = JVal.null ∧
      col_val_to_json (ColVal.integer n) = JVal.num (toString n) ∧
      col_val_to_json (ColVal.real lit) = JVal.num lit ∧
      (utf8_decode bs = some cs →
        col_val_to_json (ColVal.text bs) = JVal.str (String.mk cs)) ∧
      (utf8_decode bs = none → col_val_to_json (ColVal.text bs) = JVal.str "") ∧
      col_val_to_json (ColVal.blob bs) = JVal.str (debug_bytes bs) ∧
      (ColVal.blob [0] ≠ ColVal.text [91, 48, 93] ∧
        col_val_to_json (ColVal.blob [0]) = col_val_to_json (ColVal.text [91, 48, 93])) := by
  intro row n lit bs cs
  refine ⟨⟨row.map (fun kv => (kv.1, col_val_to_json kv.2)), ?_, ?_, ?_⟩,
    rfl, rfl, rfl, fun h => ?_, fun h => ?_, rfl, by decide, rfl⟩
  · rfl
  · simp
  · rfl
  · simp [col_val_to_json, h]
  · simp [col_val_to_json, h]

/-- The projection the GET row loop applies: `r.ok()` — keep a decoded
row, drop an erroring step. -/
def row_step_ok : RowStep → Option (List (String × ColVal))
  | RowStep.ok r => some r
  | RowStep.err _ => none

/-- Claim C9 as frozen is refuted: when the engine reports an error while
iterating the rows of a List query, the handler does not answer 500 — the
erroring row is silently dropped (`filter_map(|r| r.ok())`) and the
response is a 200 with the remaining rows. -/
theorem claim_C9_counterexample :
    handle_get "users" []
        (GetDbResult.rows [RowStep.ok [("id", ColVal.integer 1)],
          RowStep.err "database disk image is malformed"]) =
      ⟨200, JVal.arr [JVal.obj [("id", JVal.num "1")]], [("SELECT * FROM users", [])]⟩ :=
  rfl

/-- Claim C9 amended: an engine error at statement preparation or at query
start is answered 500 with the engine's message under `error`, and the
same holds for execute errors in Create, Update, and Delete; but an error
reported while iterating the rows of a List query is silently discarded —
the response is a 200 array holding only the successfully read rows. -/
theorem claim_C9_amended :
    ∀ (t : String) (params : List (String × String)) (payload : JVal) (id : Int)
      (e : String) (steps : List RowStep) (sql : String) (ps : List SqlValue),
      (handle_get_build t params = GetOutcome.execute sql ps →
        handle_get t params (GetDbResult.prepare_err e) = ⟨500, errBody e, [(sql, ps)]⟩ ∧
        handle_get t params (GetDbResult.query_err e) = ⟨500, errBody e, [(sql, ps)]⟩ ∧
        handle_get t params (GetDbResult.rows steps) =
          ⟨200, JVal.arr ((steps.filterMap row_step_ok).map row_to_json), [(sql, ps)]⟩) ∧
      (handle_post_build t payload = Except.ok (sql, ps) →
        handle_post t payload (ExecResult.err e) = ⟨500, errBody e, [(sql, ps)]⟩) ∧
      (handle_put_build t id payload = Except.ok (sql, ps) →
        handle_put t id payload (ExecResult.err e) = ⟨500, errBody e, [(sql, ps)]⟩) ∧
      handle_delete t id (ExecResult.err e) =
        ⟨500, errBody e, [("DELETE FROM " ++ t ++ " WHERE id = ?", [SqlValue.integer id])]⟩ := by
  intro t params payload id e steps sql ps
  refine ⟨fun h => ?_, fun h => ?_, fun h => ?_, rfl⟩
  · have hrows : (steps.filterMap
        (fun st =>
          match st with
          | RowStep.ok r => some (row_to_json r)
          | RowStep.err _ => none)) =
        (steps.filterMap row_step_ok).map row_to_json := by
      induction steps with
      | nil => rfl
      | cons st rest ih =>
        cases st with
        | ok r => simp [row_step_ok, ih]
        | err m => simp [row_step_ok, ih]
    refine ⟨?_, ?_, ?_⟩ <;>
      simp [handle_get, h, handle_get_respond, hrows]
  · simp [handle_post, h]
  · simp [handle_put, h]

lemma run_ops_valid (ops : List (String × String × DdlOutcome)) :
    ∀ db : EasyDB, (∀ t ∈ db.exposed_tables, is_valid_identifier t = true) →
      ∀ t ∈ (run_ops db ops).exposed_tables, is_valid_identifier t = true := by
  induction ops with
  | nil => intro db h; exact h
  | cons op rest ih =>
    intro db h
    obtain ⟨tn, cols, eng⟩ := op
    by_cases hv : is_valid_identifier tn = true
    · cases eng with
      | err m =>
        have : run_ops db ((tn, cols, DdlOutcome.err m) :: rest) = run_ops db rest := by
          simp [run_ops, create_table, hv]
        rw [this]
        exact ih db h
      | ok =>
        have : run_ops db ((tn, cols, DdlOutcome.ok) :: rest) =
            run_ops { db with exposed_tables := db.exposed_tables ++ [tn] } rest := by
          simp [run_ops, create_table, hv]
        rw [this]
        refine ih _ ?_
        intro t ht
        rcases List.mem_append.1 ht with h1 | h2
        · exact h t h1
        · rw [List.mem_singleton.1 h2]
          exact hv
    · have : run_ops db ((tn, cols, eng) :: rest) = run_ops db rest := by
        simp [run_ops, create_table, hv]
      rw [this]
      exact ih db h

/-- Claim C10 (implicit invariant): every table name for which
`run_server` registers routes — and which therefore reaches a handler and
is interpolated unparameterized into the SQL text — passes the identifier
validator, because `create_table` rejects invalid names before appending
to `exposed_tables` and the route set is exactly `exposed_tables`. -/
theorem claim_C10_exposed_tables_valid :
    ∀ (name : String) (ops : List (String × String × DdlOutcome)) (t : String),
      t ∈ server_route_tables (run_ops (EasyDB.init name) ops) →
      is_valid_identifier t = true := by
  intro name ops t ht
  exact run_ops_valid ops (EasyDB.init name) (by intro t2 ht2; simp [EasyDB.init] at ht2) t ht

/-- Witness for C10 at a concrete server setup. -/
theorem claim_C10_witness : is_valid_identifier "students" = true :=
  claim_C10_exposed_tables_valid "school"
    [("students", "id INTEGER PRIMARY KEY, name TEXT, age INTEGER, gpa REAL", DdlOutcome.ok),
     ("bad name", "id INTEGER", DdlOutcome.ok)]
    "students" (by decide)
